import Mathlib

/-!
Shallow embedding of the OneButtonTiny button-debounce / click-classification
library (src/OneButtonTiny.h, src/OneButtonTiny.cpp), together with theorems
settling the specification claims about it.

Modelling conventions:
* `uint8_t` / `uint16_t` values are `Nat` with explicit `% 256` / `% 65536`
  where the C++ code truncates or wraps.
* The millisecond clock `millis()` is passed in explicitly as a `Nat`
  argument; `_now` mirrors `(uint16_t)(millis() >> 2)` from the header.
* User callbacks are modelled as emitted `Event` values: a tick returns the
  list of callbacks it would invoke assuming all three callbacks are
  attached (the C++ guards `if (_clickFunc) _clickFunc();` etc. only skip
  the call when no callback is registered).
* The packed `_flags` byte and its bit masks are embedded exactly as in the
  header. The inline helpers of the header operate on the member `_flags`;
  they are factored here into `...Flags` functions on the byte plus thin
  wrappers on the record, which is the same computation.
* The legacy duplicated `_state` member is kept as a separate field.
-/

namespace OneButtonTiny

/-- Bit 7 of `_flags`: active level polarity (header `FLAG_BUTTON_PRESSED`). -/
def FLAG_BUTTON_PRESSED : Nat := 0x80

/-- Bit 6 of `_flags`: last raw level seen by the debouncer (header `FLAG_LAST_LEVEL`). -/
def FLAG_LAST_LEVEL : Nat := 0x40

/-- Bit 5 of `_flags`: current debounced level (header `FLAG_DEBOUNCED`). -/
def FLAG_DEBOUNCED : Nat := 0x20

/-- Bits 4-2 of `_flags`: FSM state (header `STATE_MASK`). -/
def STATE_MASK : Nat := 0x1C

/-- Shift amount for the state bits (header `STATE_SHIFT`). -/
def STATE_SHIFT : Nat := 2

/-- Bits 1-0 of `_flags`: click count (header `CLICKS_MASK`). -/
def CLICKS_MASK : Nat := 0x03

/-- FSM state values (header `stateMachine_t`). -/
def OCS_INIT : Nat := 0

def OCS_DOWN : Nat := 1

def OCS_UP : Nat := 2

def OCS_COUNT : Nat := 3

def OCS_PRESS : Nat := 4

def OCS_PRESSEND : Nat := 5

/-- `(_flags & STATE_MASK) >> STATE_SHIFT` (header `_getState`). -/
def stateOfFlags (f : Nat) : Nat := (f &&& STATE_MASK) >>> STATE_SHIFT

/-- `(_flags & ~STATE_MASK) | ((s << STATE_SHIFT) & STATE_MASK)` (header
`_setState`; `_flags` is a `uint8_t`, so `& ~STATE_MASK` keeps exactly the
bits in `0xFF ^^^ STATE_MASK`). -/
def setStateFlags (f s : Nat) : Nat :=
  (f &&& (0xFF ^^^ STATE_MASK)) ||| ((s <<< STATE_SHIFT) &&& STATE_MASK)

/-- `_flags & CLICKS_MASK` (header `_getClicks`). -/
def clicksOfFlags (f : Nat) : Nat := f &&& CLICKS_MASK

/-- `(_flags & ~CLICKS_MASK) | (c & CLICKS_MASK)` (header `_setClicks`). -/
def setClicksFlags (f c : Nat) : Nat :=
  (f &&& (0xFF ^^^ CLICKS_MASK)) ||| (c &&& CLICKS_MASK)

/-- `_flags & FLAG_LAST_LEVEL` as a boolean (header `_getLastLevel`). -/
def lastLevelOfFlags (f : Nat) : Bool := f &&& FLAG_LAST_LEVEL ≠ 0

/-- `if(v) _flags |= FLAG_LAST_LEVEL; else _flags &= ~FLAG_LAST_LEVEL;`
(header `_setLastLevel`). -/
def setLastLevelFlags (f : Nat) (v : Bool) : Nat :=
  if v then f ||| FLAG_LAST_LEVEL else f &&& (0xFF ^^^ FLAG_LAST_LEVEL)

/-- `_flags & FLAG_DEBOUNCED` as a boolean (header `_getDebouncedLevel`). -/
def debouncedOfFlags (f : Nat) : Bool := f &&& FLAG_DEBOUNCED ≠ 0

/-- `if(v) _flags |= FLAG_DEBOUNCED; else _flags &= ~FLAG_DEBOUNCED;`
(header `_setDebouncedLevel`). -/
def setDebouncedFlags (f : Nat) (v : Bool) : Nat :=
  if v then f ||| FLAG_DEBOUNCED else f &&& (0xFF ^^^ FLAG_DEBOUNCED)

/-- `_flags & FLAG_BUTTON_PRESSED` as a boolean (header `_getButtonPressed`). -/
def buttonPressedOfFlags (f : Nat) : Bool := f &&& FLAG_BUTTON_PRESSED ≠ 0

/-- The member state of a `OneButtonTiny` instance (header, private section).
`flags` is the packed byte `_flags`; `state` is the legacy duplicated
`_state` member kept for compatibility. -/
structure Btn where
  click_ms : Nat
  press_ms : Nat
  startTime : Nat
  lastDebounceTime : Nat
  pin : Nat
  debounce_ms : Nat
  flags : Nat
  state : Nat
deriving Repr, DecidableEq

/-- Header inline helper `_setState`. -/
def _setState (b : Btn) (s : Nat) : Btn := { b with flags := setStateFlags b.flags s }

/-- Header inline helper `_getState`. -/
def _getState (b : Btn) : Nat := stateOfFlags b.flags

/-- Header inline helper `_setClicks`. -/
def _setClicks (b : Btn) (c : Nat) : Btn := { b with flags := setClicksFlags b.flags c }

/-- Header inline helper `_getClicks`. -/
def _getClicks (b : Btn) : Nat := clicksOfFlags b.flags

/-- Header inline helper `_getButtonPressed`. -/
def _getButtonPressed (b : Btn) : Bool := buttonPressedOfFlags b.flags

/-- Header inline helper `_getLastLevel`. -/
def _getLastLevel (b : Btn) : Bool := lastLevelOfFlags b.flags

/-- Header inline helper `_setLastLevel`. -/
def _setLastLevel (b : Btn) (v : Bool) : Btn := { b with flags := setLastLevelFlags b.flags v }

/-- Header inline helper `_getDebouncedLevel`. -/
def _getDebouncedLevel (b : Btn) : Bool := debouncedOfFlags b.flags

/-- Header inline helper `_setDebouncedLevel`. -/
def _setDebouncedLevel (b : Btn) (v : Bool) : Btn :=
  { b with flags := setDebouncedFlags b.flags v }

/-- Unsigned 16-bit subtraction `(uint16_t)(a - b)`. -/
def u16sub (a b : Nat) : Nat := (a % 65536 + (65536 - b % 65536)) % 65536

/-- `_now()` time helper: `(uint16_t)(millis() >> 2)` (4 ms resolution). -/
def _now (millis : Nat) : Nat := (millis >>> 2) % 65536

/-- The `(now - start) << 2` computation, truncated to `uint16_t`, shared by
the header's `_elapsed` helper and the `waitTime` line of `_fsm`, as a
function of an already-converted `_now` value. -/
def elapsedT (now start : Nat) : Nat := (u16sub now start <<< 2) % 65536

/-- `_elapsed(start)` time helper: `(_now() - start) << 2` as a `uint16_t`,
converting 4 ms ticks back to milliseconds. -/
def _elapsed (millis start : Nat) : Nat := elapsedT (_now millis) start

/-- The constructor `OneButtonTiny(pin, activeLow, pullupActive)`: flags start
at 0 and get `FLAG_BUTTON_PRESSED` when the button is active-high; all other
members take their in-class initializers. `pullupActive` only configures the
hardware pin mode and touches no member. -/
def construct (pin : Nat) (activeLow pullupActive : Bool) : Btn :=
  { click_ms := 400
    press_ms := 800
    startTime := 0
    lastDebounceTime := 0
    pin := pin % 256
    debounce_ms := 50
    flags := if activeLow then 0 else FLAG_BUTTON_PRESSED
    state := OCS_INIT }

/-- `setDebounceMs` (argument is a `uint8_t`). -/
def setDebounceMs (b : Btn) (ms : Nat) : Btn := { b with debounce_ms := ms % 256 }

/-- `setClickMs` (argument is a `uint16_t`). -/
def setClickMs (b : Btn) (ms : Nat) : Btn := { b with click_ms := ms % 65536 }

/-- `setPressMs` (argument is a `uint16_t`). -/
def setPressMs (b : Btn) (ms : Nat) : Btn := { b with press_ms := ms % 65536 }

/-- `OneButtonTiny::reset()`: forces the packed state to `OCS_INIT`, the click
count to 0, `_startTime` to 0, and re-syncs the legacy `_state` member. -/
def reset (b : Btn) : Btn :=
  let b1 := _setState b OCS_INIT
  let b2 := _setClicks b1 0
  let b3 := { b2 with startTime := 0 }
  { b3 with state := OCS_INIT }

/-- `OneButtonTiny::_debounce(level)`: if the raw level matches the last seen
level and the (4 ms-tick) debounce interval `(uint8_t)(_debounce_ms >> 2)` has
elapsed since `_lastDebounceTime`, latch the debounced level; otherwise,
on a level change, restart the debounce timer. Returns the debounced level. -/
def _debounce (b : Btn) (level : Bool) (millis : Nat) : Btn × Bool :=
  let now := _now millis
  if _getLastLevel b = level then
    if u16sub now b.lastDebounceTime ≥ (b.debounce_ms >>> 2) % 256 then
      let b' := _setDebouncedLevel b level
      (b', _getDebouncedLevel b')
    else
      (b, _getDebouncedLevel b)
  else
    let b' := _setLastLevel { b with lastDebounceTime := now } level
    (b', _getDebouncedLevel b')

/-- The user callbacks a tick can invoke, assuming all three are attached. -/
inductive Event where
  | click
  | doubleClick
  | longPressStart
deriving Repr, DecidableEq

/-- `OneButtonTiny::_fsm(activeLevel)`: one advance step of the click/press
finite state machine, embedded branch-for-branch from the `switch` in the
source. Returns the updated instance and the list of callbacks invoked
during this step (in invocation order). -/
def _fsm (b : Btn) (activeLevel : Bool) (millis : Nat) : Btn × List Event :=
  let now := _now millis
  let waitTime := _elapsed millis b.startTime
  let currentState := _getState b
  let step : Btn × List Event :=
    if currentState = OCS_INIT then
      if activeLevel then
        (_setClicks { _setState b OCS_DOWN with startTime := now } 0, [])
      else
        (b, [])
    else if currentState = OCS_DOWN then
      if activeLevel = false then
        ({ _setState b OCS_UP with startTime := now }, [])
      else if waitTime > b.press_ms then
        (_setState b OCS_PRESS, [Event.longPressStart])
      else
        (b, [])
    else if currentState = OCS_UP then
      (_setState (_setClicks b (_getClicks b + 1)) OCS_COUNT, [])
    else if currentState = OCS_COUNT then
      if activeLevel then
        ({ _setState b OCS_DOWN with startTime := now }, [])
      else if waitTime ≥ b.click_ms ∨ _getClicks b ≥ 2 then
        let clicks := _getClicks b
        let evs :=
          if clicks = 1 then [Event.click]
          else if clicks ≥ 2 then [Event.doubleClick]
          else []
        (reset b, evs)
      else
        (b, [])
    else if currentState = OCS_PRESS then
      if activeLevel = false then
        ({ _setState b OCS_PRESSEND with startTime := now }, [])
      else
        (b, [])
    else if currentState = OCS_PRESSEND then
      (reset b, [])
    else
      (reset b, [])
  ({ step.1 with state := _getState step.1 }, step.2)

/-- `OneButtonTiny::tick(bool activeLevel)`: debounce then FSM advance. -/
def tick (b : Btn) (activeLevel : Bool) (millis : Nat) : Btn × List Event :=
  let d := _debounce b activeLevel millis
  _fsm d.1 d.2 millis

/-- `OneButtonTiny::tick()`: the pin-sampling variant, with the raw pin level
supplied by the environment; it maps the raw level through the configured
polarity and continues like `tick(bool)`. -/
def tickRaw (b : Btn) (rawLevel : Bool) (millis : Nat) : Btn × List Event :=
  tick b (if _getButtonPressed b then rawLevel else !rawLevel) millis

/-- `OneButtonTiny::isIdle()`: compares the legacy `_state` member with `OCS_INIT`. -/
def isIdle (b : Btn) : Bool := b.state == OCS_INIT

/-- Run a sequence of FSM advance steps; each element of the trace is a
(debounced active level, millis clock value) pair. Returns the final state
and the concatenation of all callback invocations. -/
def runFsm (b : Btn) : List (Bool × Nat) → Btn × List Event
  | [] => (b, [])
  | p :: rest =>
    let r := _fsm b p.1 p.2
    let r2 := runFsm r.1 rest
    (r2.1, r.2 ++ r2.2)

/-- A block of ticks all reporting the active (pressed) level. -/
def holdT (ts : List Nat) : List (Bool × Nat) := ts.map fun t => (true, t)

/-- A block of ticks all reporting the inactive (released) level. -/
def holdF (ts : List Nat) : List (Bool × Nat) := ts.map fun t => (false, t)

/-! ### Bitwise toolkit for the packed `_flags` byte -/

theorem land_lor_right (a b c : Nat) : (a ||| b) &&& c = (a &&& c) ||| (b &&& c) := by
  apply Nat.eq_of_testBit_eq
  intro i
  rw [Nat.testBit_land, Nat.testBit_lor, Nat.testBit_lor, Nat.testBit_land, Nat.testBit_land]
  cases a.testBit i <;> cases b.testBit i <;> cases c.testBit i <;> rfl

theorem land_assoc3 (a b c : Nat) : a &&& b &&& c = a &&& (b &&& c) := by
  apply Nat.eq_of_testBit_eq
  intro i
  rw [Nat.testBit_land, Nat.testBit_land, Nat.testBit_land, Nat.testBit_land]
  cases a.testBit i <;> cases b.testBit i <;> cases c.testBit i <;> rfl

theorem state_field_roundtrip (s : Nat) : ((s <<< 2) &&& 28) >>> 2 = s % 8 := by
  apply Nat.eq_of_testBit_eq
  intro i
  rw [Nat.testBit_shiftRight, Nat.testBit_land, Nat.testBit_shiftLeft,
    show (28 : Nat) = 7 <<< 2 by rfl, Nat.testBit_shiftLeft,
    show (7 : Nat) = 2 ^ 3 - 1 by rfl, Nat.testBit_two_pow_sub_one,
    show (8 : Nat) = 2 ^ 3 by rfl, Nat.testBit_mod_two_pow]
  simp [Nat.add_sub_cancel_left]
  by_cases h : i < 3 <;> simp [h]

theorem land_three_mod (c : Nat) : c &&& 3 = c % 4 := by
  apply Nat.eq_of_testBit_eq
  intro i
  rw [Nat.testBit_land, show (4 : Nat) = 2 ^ 2 by rfl, Nat.testBit_mod_two_pow,
    show (3 : Nat) = 2 ^ 2 - 1 by rfl, Nat.testBit_two_pow_sub_one, Bool.and_comm]

theorem lor_ne_zero_of_testBit (x m i : Nat) (hm : Nat.testBit m i = true) :
    x ||| m ≠ 0 := by
  intro h
  have hb := congrArg (fun y => Nat.testBit y i) h
  simp only [Nat.testBit_lor, hm, Bool.or_true, Nat.zero_testBit] at hb
  cases hb

/-! ### Evaluation lemmas for the flag-byte operations -/

@[simp] theorem stateOf_setStateFlags (f s : Nat) : stateOfFlags (setStateFlags f s) = s % 8 := by
  simp only [stateOfFlags, setStateFlags, STATE_MASK, STATE_SHIFT]
  rw [land_lor_right, land_assoc3, land_assoc3,
    show (0xFF ^^^ 28 : Nat) &&& 28 = 0 from by rfl,
    show (28 : Nat) &&& 28 = 28 from by rfl, Nat.and_zero, Nat.zero_or]
  exact state_field_roundtrip s

@[simp] theorem clicksOf_setStateFlags (f s : Nat) :
    clicksOfFlags (setStateFlags f s) = clicksOfFlags f := by
  simp only [clicksOfFlags, setStateFlags, STATE_MASK, STATE_SHIFT, CLICKS_MASK]
  rw [land_lor_right, land_assoc3, land_assoc3,
    show (0xFF ^^^ 28 : Nat) &&& 3 = 3 from by rfl,
    show (28 : Nat) &&& 3 = 0 from by rfl, Nat.and_zero, Nat.or_zero]

@[simp] theorem stateOf_setClicksFlags (f c : Nat) :
    stateOfFlags (setClicksFlags f c) = stateOfFlags f := by
  simp only [stateOfFlags, setClicksFlags, STATE_MASK, CLICKS_MASK]
  rw [land_lor_right, land_assoc3, land_assoc3,
    show (0xFF ^^^ 3 : Nat) &&& 28 = 28 from by rfl,
    show (3 : Nat) &&& 28 = 0 from by rfl, Nat.and_zero, Nat.or_zero]

@[simp] theorem clicksOf_setClicksFlags (f c : Nat) :
    clicksOfFlags (setClicksFlags f c) = c % 4 := by
  simp only [clicksOfFlags, setClicksFlags, CLICKS_MASK]
  rw [land_lor_right, land_assoc3, land_assoc3,
    show (0xFF ^^^ 3 : Nat) &&& 3 = 0 from by rfl,
    show (3 : Nat) &&& 3 = 3 from by rfl, Nat.and_zero, Nat.zero_or]
  exact land_three_mod c

@[simp] theorem debOf_setStateFlags (f s : Nat) :
    debouncedOfFlags (setStateFlags f s) = debouncedOfFlags f := by
  have e : (f &&& (0xFF ^^^ 28) ||| (s <<< 2) &&& 28) &&& 32 = f &&& 32 := by
    rw [land_lor_right, land_assoc3, land_assoc3,
      show (0xFF ^^^ 28 : Nat) &&& 32 = 32 from by rfl,
      show (28 : Nat) &&& 32 = 0 from by rfl, Nat.and_zero, Nat.or_zero]
  simp only [debouncedOfFlags, setStateFlags, STATE_MASK, STATE_SHIFT, FLAG_DEBOUNCED, e]

@[simp] theorem debOf_setClicksFlags (f c : Nat) :
    debouncedOfFlags (setClicksFlags f c) = debouncedOfFlags f := by
  have e : (f &&& (0xFF ^^^ 3) ||| c &&& 3) &&& 32 = f &&& 32 := by
    rw [land_lor_right, land_assoc3, land_assoc3,
      show (0xFF ^^^ 3 : Nat) &&& 32 = 32 from by rfl,
      show (3 : Nat) &&& 32 = 0 from by rfl, Nat.and_zero, Nat.or_zero]
  simp only [debouncedOfFlags, setClicksFlags, CLICKS_MASK, FLAG_DEBOUNCED, e]

@[simp] theorem lastOf_setStateFlags (f s : Nat) :
    lastLevelOfFlags (setStateFlags f s) = lastLevelOfFlags f := by
  have e : (f &&& (0xFF ^^^ 28) ||| (s <<< 2) &&& 28) &&& 64 = f &&& 64 := by
    rw [land_lor_right, land_assoc3, land_assoc3,
      show (0xFF ^^^ 28 : Nat) &&& 64 = 64 from by rfl,
      show (28 : Nat) &&& 64 = 0 from by rfl, Nat.and_zero, Nat.or_zero]
  simp only [lastLevelOfFlags, setStateFlags, STATE_MASK, STATE_SHIFT, FLAG_LAST_LEVEL, e]

@[simp] theorem lastOf_setClicksFlags (f c : Nat) :
    lastLevelOfFlags (setClicksFlags f c) = lastLevelOfFlags f := by
  have e : (f &&& (0xFF ^^^ 3) ||| c &&& 3) &&& 64 = f &&& 64 := by
    rw [land_lor_right, land_assoc3, land_assoc3,
      show (0xFF ^^^ 3 : Nat) &&& 64 = 64 from by rfl,
      show (3 : Nat) &&& 64 = 0 from by rfl, Nat.and_zero, Nat.or_zero]
  simp only [lastLevelOfFlags, setClicksFlags, CLICKS_MASK, FLAG_LAST_LEVEL, e]

@[simp] theorem lastOf_setLastLevelFlags (f : Nat) (v : Bool) :
    lastLevelOfFlags (setLastLevelFlags f v) = v := by
  cases v
  · have e : f &&& 191 &&& 64 = 0 := by
      rw [land_assoc3, show (191 : Nat) &&& 64 = 0 from by rfl, Nat.and_zero]
    simp [lastLevelOfFlags, setLastLevelFlags, FLAG_LAST_LEVEL, e]
  · have e64 : (f ||| 64) &&& 64 = (f &&& 64) ||| 64 := by
      rw [land_lor_right, show (64 : Nat) &&& 64 = 64 from by rfl]
    have e2 : (f &&& 64) ||| 64 ≠ 0 := lor_ne_zero_of_testBit _ 64 6 (by decide)
    simp [lastLevelOfFlags, setLastLevelFlags, FLAG_LAST_LEVEL, e64, e2]

@[simp] theorem debOf_setLastLevelFlags (f : Nat) (v : Bool) :
    debouncedOfFlags (setLastLevelFlags f v) = debouncedOfFlags f := by
  cases v
  · have e : f &&& 191 &&& 32 = f &&& 32 := by
      rw [land_assoc3, show (191 : Nat) &&& 32 = 32 from by rfl]
    simp [debouncedOfFlags, setLastLevelFlags, FLAG_LAST_LEVEL, FLAG_DEBOUNCED, e]
  · have e : (f ||| 64) &&& 32 = f &&& 32 := by
      rw [land_lor_right, show (64 : Nat) &&& 32 = 0 from by rfl, Nat.or_zero]
    simp [debouncedOfFlags, setLastLevelFlags, FLAG_LAST_LEVEL, FLAG_DEBOUNCED, e]

@[simp] theorem debOf_setDebouncedFlags (f : Nat) (v : Bool) :
    debouncedOfFlags (setDebouncedFlags f v) = v := by
  cases v
  · have e : f &&& 223 &&& 32 = 0 := by
      rw [land_assoc3, show (223 : Nat) &&& 32 = 0 from by rfl, Nat.and_zero]
    simp [debouncedOfFlags, setDebouncedFlags, FLAG_DEBOUNCED, e]
  · have e32 : (f ||| 32) &&& 32 = (f &&& 32) ||| 32 := by
      rw [land_lor_right, show (32 : Nat) &&& 32 = 32 from by rfl]
    have e2 : (f &&& 32) ||| 32 ≠ 0 := lor_ne_zero_of_testBit _ 32 5 (by decide)
    simp [debouncedOfFlags, setDebouncedFlags, FLAG_DEBOUNCED, e32, e2]

@[simp] theorem lastOf_setDebouncedFlags (f : Nat) (v : Bool) :
    lastLevelOfFlags (setDebouncedFlags f v) = lastLevelOfFlags f := by
  cases v
  · have e : f &&& 223 &&& 64 = f &&& 64 := by
      rw [land_assoc3, show (223 : Nat) &&& 64 = 64 from by rfl]
    simp [lastLevelOfFlags, setDebouncedFlags, FLAG_LAST_LEVEL, FLAG_DEBOUNCED, e]
  · have e : (f ||| 32) &&& 64 = f &&& 64 := by
      rw [land_lor_right, show (32 : Nat) &&& 64 = 0 from by rfl, Nat.or_zero]
    simp [lastLevelOfFlags, setDebouncedFlags, FLAG_LAST_LEVEL, FLAG_DEBOUNCED, e]

/-- The click count, read from its two-bit field, can never exceed 3. -/
theorem getClicks_le_three (b : Btn) : _getClicks b ≤ 3 := Nat.and_le_right

/-! ### Abstract view of the FSM-relevant state

`view` projects a `Btn` to the quantities the FSM actually branches on:
the two configured durations, the unpacked state, the unpacked click count
and the stored start time. `stepV` is the same advance step expressed on
the view; `fsm_view` proves the two agree, so all trace reasoning can be
done on plain numbers instead of packed bytes. -/

/-- FSM-relevant projection of a `Btn`. -/
structure V where
  press_ms : Nat
  click_ms : Nat
  st : Nat
  clicks : Nat
  startT : Nat
deriving Repr, DecidableEq

/-- Project a `Btn` to its FSM-relevant view. -/
def view (b : Btn) : V :=
  ⟨b.press_ms, b.click_ms, _getState b, _getClicks b, b.startTime⟩

/-- The `_fsm` advance step expressed on the abstract view (see `fsm_view`). -/
def stepV (v : V) (lvl : Bool) (now : Nat) : V × List Event :=
  let waitTime := elapsedT now v.startT
  if v.st = 0 then
    if lvl then ({ v with st := 1, clicks := 0, startT := now }, []) else (v, [])
  else if v.st = 1 then
    if lvl = false then ({ v with st := 2, startT := now }, [])
    else if waitTime > v.press_ms then ({ v with st := 4 }, [Event.longPressStart])
    else (v, [])
  else if v.st = 2 then
    ({ v with st := 3, clicks := (v.clicks + 1) % 4 }, [])
  else if v.st = 3 then
    if lvl then ({ v with st := 1, startT := now }, [])
    else if waitTime ≥ v.click_ms ∨ v.clicks ≥ 2 then
      ({ v with st := 0, clicks := 0, startT := 0 },
        if v.clicks = 1 then [Event.click]
        else if v.clicks ≥ 2 then [Event.doubleClick]
        else [])
    else (v, [])
  else if v.st = 4 then
    if lvl = false then ({ v with st := 5, startT := now }, []) else (v, [])
  else if v.st = 5 then
    ({ v with st := 0, clicks := 0, startT := 0 }, [])
  else
    ({ v with st := 0, clicks := 0, startT := 0 }, [])

/-- Simulation: `_fsm` and `stepV` agree through `view`. -/
theorem fsm_view (b : Btn) (lvl : Bool) (m : Nat) :
    view (_fsm b lvl m).1 = (stepV (view b) lvl (_now m)).1 ∧
      (_fsm b lvl m).2 = (stepV (view b) lvl (_now m)).2 := by
  have hst : _getState b = 0 ∨ _getState b = 1 ∨ _getState b = 2 ∨ _getState b = 3 ∨
      _getState b = 4 ∨ _getState b = 5 ∨ 5 < _getState b := by omega
  rcases hst with h | h | h | h | h | h | h
  · cases lvl <;>
      simp [_fsm, stepV, view, _elapsed, _getState, _getClicks, _setState, _setClicks, h,
        OCS_INIT, OCS_DOWN, OCS_UP, OCS_COUNT, OCS_PRESS, OCS_PRESSEND, reset] <;>
      simp_all [_getState]
  · cases lvl
    · simp [_fsm, stepV, view, _elapsed, _getState, _getClicks, _setState, _setClicks, h,
        OCS_INIT, OCS_DOWN, OCS_UP, OCS_COUNT, OCS_PRESS, OCS_PRESSEND, reset] <;>
      simp_all [_getState]
    · by_cases hw : b.press_ms < elapsedT (_now m) b.startTime <;>
        simp [_fsm, stepV, view, _elapsed, _getState, _getClicks, _setState, _setClicks, h,
          hw, OCS_INIT, OCS_DOWN, OCS_UP, OCS_COUNT, OCS_PRESS, OCS_PRESSEND, reset] <;>
        simp_all [_getState]
  · cases lvl <;>
      simp [_fsm, stepV, view, _elapsed, _getState, _getClicks, _setState, _setClicks, h,
        OCS_INIT, OCS_DOWN, OCS_UP, OCS_COUNT, OCS_PRESS, OCS_PRESSEND, reset] <;>
      simp_all [_getState, _getClicks]
  · cases lvl
    · by_cases hw : b.click_ms ≤ elapsedT (_now m) b.startTime ∨ 2 ≤ clicksOfFlags b.flags <;>
        simp [_fsm, stepV, view, _elapsed, _getState, _getClicks, _setState, _setClicks, h,
          hw, OCS_INIT, OCS_DOWN, OCS_UP, OCS_COUNT, OCS_PRESS, OCS_PRESSEND, reset] <;>
        simp_all [_getState, _getClicks]
    · simp [_fsm, stepV, view, _elapsed, _getState, _getClicks, _setState, _setClicks, h,
        OCS_INIT, OCS_DOWN, OCS_UP, OCS_COUNT, OCS_PRESS, OCS_PRESSEND, reset] <;>
      simp_all [_getState]
  · cases lvl <;>
      simp [_fsm, stepV, view, _elapsed, _getState, _getClicks, _setState, _setClicks, h,
        OCS_INIT, OCS_DOWN, OCS_UP, OCS_COUNT, OCS_PRESS, OCS_PRESSEND, reset] <;>
      simp_all [_getState]
  · cases lvl <;>
      simp [_fsm, stepV, view, _elapsed, _getState, _getClicks, _setState, _setClicks, h,
        OCS_INIT, OCS_DOWN, OCS_UP, OCS_COUNT, OCS_PRESS, OCS_PRESSEND, reset] <;>
      simp_all [_getState]
  · have h0 : ¬ _getState b = 0 := by omega
    have h1 : ¬ _getState b = 1 := by omega
    have h2 : ¬ _getState b = 2 := by omega
    have h3 : ¬ _getState b = 3 := by omega
    have h4 : ¬ _getState b = 4 := by omega
    have h5 : ¬ _getState b = 5 := by omega
    cases lvl <;>
      simp [_fsm, stepV, view, _elapsed, _getState, _getClicks, _setState, _setClicks,
        h0, h1, h2, h3, h4, h5, OCS_INIT, OCS_DOWN, OCS_UP, OCS_COUNT, OCS_PRESS,
        OCS_PRESSEND, reset] <;>
      simp_all [_getState]

/-! ### View-level runs -/

/-- View-level run: entries are (debounced level, already-converted `_now` value). -/
def runV (v : V) : List (Bool × Nat) → V × List Event
  | [] => (v, [])
  | p :: rest =>
    let r := stepV v p.1 p.2
    let r2 := runV r.1 rest
    (r2.1, r.2 ++ r2.2)

/-- Convert a millis-level trace to a view-level trace. -/
def viewTrace (tr : List (Bool × Nat)) : List (Bool × Nat) := tr.map fun p => (p.1, _now p.2)

theorem run_view (tr : List (Bool × Nat)) : ∀ b : Btn,
    view (runFsm b tr).1 = (runV (view b) (viewTrace tr)).1 ∧
      (runFsm b tr).2 = (runV (view b) (viewTrace tr)).2 := by
  induction tr with
  | nil => exact fun b => ⟨rfl, rfl⟩
  | cons p rest ih =>
    intro b
    have hs := fsm_view b p.1 p.2
    have ihb := ih (_fsm b p.1 p.2).1
    rw [show viewTrace (p :: rest) = (p.1, _now p.2) :: viewTrace rest from rfl]
    simp only [runFsm, runV]
    rw [← hs.1]
    exact ⟨ihb.1, by rw [ihb.2, hs.2]⟩

/-- The callback trace of `runFsm` is computed by the view-level run. -/
theorem runFsm_events (b : Btn) (tr : List (Bool × Nat)) :
    (runFsm b tr).2 = (runV (view b) (viewTrace tr)).2 := (run_view tr b).2

theorem runV_cons (v : V) (a : Bool) (n : Nat) (l : List (Bool × Nat)) :
    runV v ((a, n) :: l) =
      ((runV (stepV v a n).1 l).1, (stepV v a n).2 ++ (runV (stepV v a n).1 l).2) := rfl

theorem runV_cons_pair (v : V) (p : Bool × Nat) (l : List (Bool × Nat)) :
    runV v (p :: l) =
      ((runV (stepV v p.1 p.2).1 l).1, (stepV v p.1 p.2).2 ++ (runV (stepV v p.1 p.2).1 l).2) := rfl

theorem runV_append (v : V) (l1 l2 : List (Bool × Nat)) :
    runV v (l1 ++ l2) =
      ((runV (runV v l1).1 l2).1, (runV v l1).2 ++ (runV (runV v l1).1 l2).2) := by
  induction l1 generalizing v with
  | nil => rfl
  | cons p l1 ih =>
    rw [List.cons_append, runV_cons_pair, runV_cons_pair, ih]
    simp

theorem runV_cons_chain {v v' : V} {a : Bool} {n : Nat} {e1 : List Event}
    (l : List (Bool × Nat)) (h : stepV v a n = (v', e1)) :
    runV v ((a, n) :: l) = ((runV v' l).1, e1 ++ (runV v' l).2) := by
  rw [runV_cons, h]

theorem runV_chain {v v' : V} {e1 : List Event} {l1 : List (Bool × Nat)}
    (l2 : List (Bool × Nat)) (h : runV v l1 = (v', e1)) :
    runV v (l1 ++ l2) = ((runV v' l2).1, e1 ++ (runV v' l2).2) := by
  rw [runV_append, h]

theorem runV_chain_pair {v v1 v2 : V} {e1 e2 : List Event} {l1 l2 : List (Bool × Nat)}
    (h1 : runV v l1 = (v1, e1)) (h2 : runV v1 l2 = (v2, e2)) :
    runV v (l1 ++ l2) = (v2, e1 ++ e2) := by
  have h11 : (runV v l1).1 = v1 := by rw [h1]
  have h12 : (runV v l1).2 = e1 := by rw [h1]
  rw [runV_append, h11, h12, h2]

theorem runV_cons_pair_chain {v v1 v2 : V} {e1 e2 : List Event} {a : Bool} {n : Nat}
    {l : List (Bool × Nat)} (h1 : stepV v a n = (v1, e1)) (h2 : runV v1 l = (v2, e2)) :
    runV v ((a, n) :: l) = (v2, e1 ++ e2) := by
  have h11 : (stepV v a n).1 = v1 := by rw [h1]
  have h12 : (stepV v a n).2 = e1 := by rw [h1]
  rw [runV_cons, h11, h12, h2]

/-! ### One-step evaluation lemmas for `stepV` -/

theorem stepV_idle_f (P C k s n : Nat) :
    stepV ⟨P, C, 0, k, s⟩ false n = (⟨P, C, 0, k, s⟩, []) := by simp [stepV]

theorem stepV_idle_t (P C k s n : Nat) :
    stepV ⟨P, C, 0, k, s⟩ true n = (⟨P, C, 1, 0, n⟩, []) := by simp [stepV]

theorem stepV_down_stay (P C k s n : Nat) (h : elapsedT n s ≤ P) :
    stepV ⟨P, C, 1, k, s⟩ true n = (⟨P, C, 1, k, s⟩, []) := by
  have h' : ¬ P < elapsedT n s := by omega
  simp [stepV, h']

theorem stepV_down_release (P C k s n : Nat) :
    stepV ⟨P, C, 1, k, s⟩ false n = (⟨P, C, 2, k, n⟩, []) := by simp [stepV]

theorem stepV_down_lp (P C k s n : Nat) (h : P < elapsedT n s) :
    stepV ⟨P, C, 1, k, s⟩ true n = (⟨P, C, 4, k, s⟩, [Event.longPressStart]) := by
  simp [stepV, h]

theorem stepV_up (P C k s n : Nat) (lvl : Bool) :
    stepV ⟨P, C, 2, k, s⟩ lvl n = (⟨P, C, 3, (k + 1) % 4, s⟩, []) := by simp [stepV]

theorem stepV_count_press (P C k s n : Nat) :
    stepV ⟨P, C, 3, k, s⟩ true n = (⟨P, C, 1, k, n⟩, []) := by simp [stepV]

theorem stepV_count_stay (P C k s n : Nat) (hk : k < 2) (ht : elapsedT n s < C) :
    stepV ⟨P, C, 3, k, s⟩ false n = (⟨P, C, 3, k, s⟩, []) := by
  have h' : ¬ (C ≤ elapsedT n s ∨ 2 ≤ k) := by omega
  simp [stepV, h']

theorem stepV_count_fire1 (P C s n : Nat) (ht : C ≤ elapsedT n s) :
    stepV ⟨P, C, 3, 1, s⟩ false n = (⟨P, C, 0, 0, 0⟩, [Event.click]) := by
  simp [stepV, ht]

theorem stepV_count_fire2 (P C k s n : Nat) (hk : 2 ≤ k) :
    stepV ⟨P, C, 3, k, s⟩ false n = (⟨P, C, 0, 0, 0⟩, [Event.doubleClick]) := by
  have h1 : k ≠ 1 := by omega
  simp [stepV, hk, h1]

theorem stepV_count_fire0 (P C s n : Nat) (ht : C ≤ elapsedT n s) :
    stepV ⟨P, C, 3, 0, s⟩ false n = (⟨P, C, 0, 0, 0⟩, []) := by
  simp [stepV, ht]

theorem stepV_press_stay (P C k s n : Nat) :
    stepV ⟨P, C, 4, k, s⟩ true n = (⟨P, C, 4, k, s⟩, []) := by simp [stepV]

theorem stepV_press_release (P C k s n : Nat) :
    stepV ⟨P, C, 4, k, s⟩ false n = (⟨P, C, 5, k, n⟩, []) := by simp [stepV]

theorem stepV_pressend (P C k s n : Nat) (lvl : Bool) :
    stepV ⟨P, C, 5, k, s⟩ lvl n = (⟨P, C, 0, 0, 0⟩, []) := by
  cases lvl <;> simp [stepV]

/-! ### Block lemmas: runs that stay in one state and fire nothing -/

/-- View-level trace of inactive ticks at the given millis times. -/
def nowF (ts : List Nat) : List (Bool × Nat) := ts.map fun t => (false, _now t)

/-- View-level trace of active ticks at the given millis times. -/
def nowT (ts : List Nat) : List (Bool × Nat) := ts.map fun t => (true, _now t)

@[simp] theorem viewTrace_append (l1 l2 : List (Bool × Nat)) :
    viewTrace (l1 ++ l2) = viewTrace l1 ++ viewTrace l2 := by
  simp [viewTrace]

@[simp] theorem viewTrace_cons (p : Bool × Nat) (l : List (Bool × Nat)) :
    viewTrace (p :: l) = (p.1, _now p.2) :: viewTrace l := rfl

@[simp] theorem viewTrace_holdF (ts : List Nat) : viewTrace (holdF ts) = nowF ts := by
  simp [viewTrace, holdF, nowF, List.map_map, Function.comp]

@[simp] theorem viewTrace_holdT (ts : List Nat) : viewTrace (holdT ts) = nowT ts := by
  simp [viewTrace, holdT, nowT, List.map_map, Function.comp]

theorem runV_idleF (P C k s : Nat) (ts : List Nat) :
    runV ⟨P, C, 0, k, s⟩ (nowF ts) = (⟨P, C, 0, k, s⟩, []) := by
  induction ts with
  | nil => rfl
  | cons t ts ih =>
    rw [show nowF (t :: ts) = (false, _now t) :: nowF ts from rfl,
      runV_cons_chain (nowF ts) (stepV_idle_f P C k s (_now t)), ih]
    rfl

theorem runV_downT (P C k s : Nat) (ts : List Nat)
    (h : ∀ t ∈ ts, elapsedT (_now t) s ≤ P) :
    runV ⟨P, C, 1, k, s⟩ (nowT ts) = (⟨P, C, 1, k, s⟩, []) := by
  induction ts with
  | nil => rfl
  | cons t ts ih =>
    rw [show nowT (t :: ts) = (true, _now t) :: nowT ts from rfl,
      runV_cons_chain (nowT ts)
        (stepV_down_stay P C k s (_now t) (h t (List.mem_cons_self t ts))),
      ih fun x hx => h x (List.mem_cons_of_mem t hx)]
    rfl

theorem runV_countF (P C k s : Nat) (hk : k < 2) (ts : List Nat)
    (h : ∀ t ∈ ts, elapsedT (_now t) s < C) :
    runV ⟨P, C, 3, k, s⟩ (nowF ts) = (⟨P, C, 3, k, s⟩, []) := by
  induction ts with
  | nil => rfl
  | cons t ts ih =>
    rw [show nowF (t :: ts) = (false, _now t) :: nowF ts from rfl,
      runV_cons_chain (nowF ts)
        (stepV_count_stay P C k s (_now t) hk (h t (List.mem_cons_self t ts))),
      ih fun x hx => h x (List.mem_cons_of_mem t hx)]
    rfl

theorem runV_pressT (P C k s : Nat) (ts : List Nat) :
    runV ⟨P, C, 4, k, s⟩ (nowT ts) = (⟨P, C, 4, k, s⟩, []) := by
  induction ts with
  | nil => rfl
  | cons t ts ih =>
    rw [show nowT (t :: ts) = (true, _now t) :: nowT ts from rfl,
      runV_cons_chain (nowT ts) (stepV_press_stay P C k s (_now t)), ih]
    rfl

/-! ### Further helper lemmas -/

theorem withState_self (b : Btn) (e : Nat) (h : b.state = e) : { b with state := e } = b := by
  cases b
  cases h
  rfl

theorem getState_reset (b : Btn) : _getState (reset b) = OCS_INIT := by
  simp [reset, _setState, _setClicks, _getState, OCS_INIT]

theorem getClicks_reset (b : Btn) : _getClicks (reset b) = 0 := by
  simp [reset, _setState, _setClicks, _getClicks, OCS_INIT]

theorem stepV_events_len (v : V) (lvl : Bool) (n : Nat) :
    (stepV v lvl n).2.length ≤ 1 := by
  unfold stepV
  split_ifs <;> simp
  all_goals split <;> simp

/-- Concrete trace: four press-release cycles in as quick a succession as the
FSM can consume them, followed by a click-window timeout (times in ms). -/
def quadClickTrace : List (Bool × Nat) :=
  [(true, 0), (false, 4), (true, 8), (true, 12), (false, 16), (true, 20),
   (true, 24), (false, 28), (true, 32), (true, 36), (false, 40), (false, 44),
   (false, 48), (false, 1648)]

/-- Concrete trace: three press-release cycles (presses at 10 ms, 90 ms,
170 ms; releases at 30 ms, 110 ms, 190 ms), sampled every 10 ms, all well
within the default 400 ms click window, followed by a quiet period. -/
def tripleClickTrace : List (Bool × Nat) :=
  (List.range 70).map fun i =>
    (decide ((10 ≤ 10 * i ∧ 10 * i < 30) ∨ (90 ≤ 10 * i ∧ 10 * i < 110) ∨
      (170 ≤ 10 * i ∧ 10 * i < 190)), 10 * i)

/-- A `Btn` with the debounced level and last-seen level latched high, reached
from a fresh instance by two debounce calls (change recorded at 7 ms, level
latched at 60 ms). -/
def debouncedHigh : Btn := (_debounce (_debounce (construct 3 true true) true 7).1 true 60).1

/-- A `Btn` whose packed state field holds the out-of-range value 6. -/
def corruptState : Btn := { construct 3 true true with flags := 24 }

/-! ### Claim theorems -/

/-- C6: for clock readings `m1 ≤ m2` (in ms) whose separation is a realistic
small interval (at most 65532 ms, the range of the 16-bit 4 ms-tick timer),
the unsigned modular elapsed-time computation recovers the separation
exactly in ticks, hence to within the 3 ms quantization error in
milliseconds, and positively for any separation of at least one tick --
even when the 16-bit clock value wraps between the readings. -/
theorem c6_wraparound_elapsed (m1 m2 : Nat) (h12 : m1 ≤ m2) (hsmall : m2 - m1 ≤ 65532) :
    u16sub (_now m2) (_now m1) = m2 / 4 - m1 / 4 ∧
    _elapsed m2 (_now m1) = 4 * (m2 / 4 - m1 / 4) ∧
    (m2 - m1) - 3 ≤ _elapsed m2 (_now m1) ∧ _elapsed m2 (_now m1) ≤ (m2 - m1) + 3 ∧
    (4 ≤ m2 - m1 → 0 < _elapsed m2 (_now m1)) := by
  simp only [u16sub, _now, _elapsed, elapsedT, Nat.shiftRight_eq_div_pow,
    Nat.shiftLeft_eq]
  norm_num
  omega

/-- Witness for C6 at a pair of readings across a wraparound of the 16-bit
tick counter: `_now 262140 = 65535` but `_now 262160 = 4`. -/
theorem c6_witness :
    _now 262160 < _now 262140 ∧
      u16sub (_now 262160) (_now 262140) = 262160 / 4 - 262140 / 4 ∧
      _elapsed 262160 (_now 262140) = 4 * (262160 / 4 - 262140 / 4) ∧
      (262160 - 262140) - 3 ≤ _elapsed 262160 (_now 262140) ∧
      _elapsed 262160 (_now 262140) ≤ (262160 - 262140) + 3 ∧
      (4 ≤ 262160 - 262140 → 0 < _elapsed 262160 (_now 262140)) :=
  ⟨by decide, c6_wraparound_elapsed 262140 262160 (by decide) (by decide)⟩

/-- C7: a single invocation of the FSM advance step invokes zero or one user
callback, never two or more, for every state, level and clock value. -/
theorem c7_at_most_one_callback (b : Btn) (lvl : Bool) (m : Nat) :
    (_fsm b lvl m).2.length ≤ 1 := by
  rw [(fsm_view b lvl m).2]
  exact stepV_events_len (view b) lvl (_now m)

/-- C8: observed in a packed state outside the defined enumeration 0-5, the
FSM advance step performs exactly `reset()` -- state Idle, zero clicks --
and invokes no callback; afterwards `isIdle()` holds. (The embedding is a
total function, so there is nothing to throw or halt.) -/
theorem c8_corrupt_state_resets (b : Btn) (lvl : Bool) (m : Nat) (h : 5 < _getState b) :
    _fsm b lvl m = (reset b, []) ∧ _getState (reset b) = OCS_INIT ∧
      isIdle (reset b) = true := by
  have h0 : ¬ _getState b = 0 := by omega
  have h1 : ¬ _getState b = 1 := by omega
  have h2 : ¬ _getState b = 2 := by omega
  have h3 : ¬ _getState b = 3 := by omega
  have h4 : ¬ _getState b = 4 := by omega
  have h5 : ¬ _getState b = 5 := by omega
  refine ⟨?_, getState_reset b, rfl⟩
  simp only [_fsm, h0, h1, h2, h3, h4, h5, OCS_INIT, OCS_DOWN, OCS_UP, OCS_COUNT,
    OCS_PRESS, OCS_PRESSEND, if_false, ite_false]
  rw [Prod.mk.injEq]
  refine ⟨?_, rfl⟩
  rw [getState_reset]
  exact withState_self (reset b) OCS_INIT rfl

/-- Witness for C8 at the concrete out-of-range packed state 6. -/
theorem c8_witness :
    5 < _getState corruptState ∧
      (_fsm corruptState true 100 = (reset corruptState, []) ∧
        _getState (reset corruptState) = OCS_INIT ∧ isIdle (reset corruptState) = true) :=
  ⟨by decide, c8_corrupt_state_resets corruptState true 100 (by decide)⟩

/-- C9: `isIdle()` compares the legacy duplicated `_state` member with
`OCS_INIT`; that member equals the packed state field after construction,
after either form of `tick`, and after `reset()`, so under that
always-reestablished synchronisation `isIdle()` holds iff the FSM state is
Idle. -/
theorem c9_isIdle_legacy_sync :
    (∀ (pin : Nat) (aL pA : Bool),
      (construct pin aL pA).state = _getState (construct pin aL pA)) ∧
    (∀ (b : Btn) (lvl : Bool) (m : Nat), (tick b lvl m).1.state = _getState (tick b lvl m).1) ∧
    (∀ (b : Btn) (raw : Bool) (m : Nat),
      (tickRaw b raw m).1.state = _getState (tickRaw b raw m).1) ∧
    (∀ b : Btn, (reset b).state = _getState (reset b)) ∧
    (∀ b : Btn, b.state = _getState b → (isIdle b = true ↔ _getState b = OCS_INIT)) := by
  refine ⟨?_, ?_, ?_, ?_, ?_⟩
  · intro pin aL pA
    cases aL <;>
      simp [construct, _getState, stateOfFlags, STATE_MASK, STATE_SHIFT, OCS_INIT,
        FLAG_BUTTON_PRESSED] <;> decide
  · intro b lvl m
    rfl
  · intro b raw m
    rfl
  · intro b
    rw [getState_reset]
    rfl
  · intro b h
    simp [isIdle, h, OCS_INIT]

/-- Witness for C9 at a freshly constructed instance. -/
theorem c9_witness :
    isIdle (construct 0 true true) = true ↔ _getState (construct 0 true true) = OCS_INIT :=
  c9_isIdle_legacy_sync.2.2.2.2 (construct 0 true true) rfl

/-- C10: the click count lives in two bits, so it is at most 3 in every state;
`_setClicks(_getClicks() + 1)` wraps modulo 4, so a fourth quick
press-release cycle wraps the count back to 0 (shown on `quadClickTrace`
after 12 ticks), and the subsequent counting-state timeout with count 0
fires no callback at all (the full trace produces no events). -/
theorem c10_two_bit_click_count :
    (∀ b : Btn, _getClicks b ≤ 3) ∧
    (∀ (b : Btn) (c : Nat), _getClicks (_setClicks b c) = c % 4) ∧
    (∀ b : Btn, _getClicks b = 3 → _getClicks (_setClicks b (_getClicks b + 1)) = 0) ∧
    _getClicks (runFsm (construct 3 true true) (quadClickTrace.take 12)).1 = 0 ∧
    (runFsm (construct 3 true true) quadClickTrace).2 = [] := by
  refine ⟨getClicks_le_three, ?_, ?_, by decide, by decide⟩
  · intro b c
    simp [_getClicks, _setClicks]
  · intro b h
    simp [_getClicks, _setClicks, h]
    rw [show clicksOfFlags b.flags = 3 from h]

/-- Witness for C10's wrap implication at a state with both click bits set. -/
theorem c10_witness :
    _getClicks { construct 3 true true with flags := 3 } = 3 ∧
      _getClicks (_setClicks { construct 3 true true with flags := 3 }
        (_getClicks { construct 3 true true with flags := 3 } + 1)) = 0 :=
  ⟨by decide, c10_two_bit_click_count.2.2.1 { construct 3 true true with flags := 3 } (by decide)⟩

/-- C3 (amended): `reset()` from any state restores the FSM state -- packed
state Idle, zero click count, zero start time, legacy state field Idle --
and afterwards `isIdle()` returns true; the debounce state (last raw level,
raw-level-change timestamp, debounced level) is left unchanged, not
restored to its construction-time values. -/
theorem c3_reset_restores_fsm_only (b : Btn) :
    _getState (reset b) = OCS_INIT ∧ _getClicks (reset b) = 0 ∧
      (reset b).startTime = 0 ∧ (reset b).state = OCS_INIT ∧ isIdle (reset b) = true ∧
      _getDebouncedLevel (reset b) = _getDebouncedLevel b ∧
      _getLastLevel (reset b) = _getLastLevel b ∧
      (reset b).lastDebounceTime = b.lastDebounceTime :=
  ⟨getState_reset b, getClicks_reset b, rfl, rfl, rfl,
    by simp [reset, _setState, _setClicks, _getDebouncedLevel, OCS_INIT],
    by simp [reset, _setState, _setClicks, _getLastLevel, OCS_INIT],
    rfl⟩

/-- Counterexample to C3 as stated: from the reachable state `debouncedHigh`
(debounced level true, last level true, debounce timestamp 1), `reset()`
does force the FSM back to Idle, but the debounce state keeps its values
and does not return to the construction-time ones (false, false, 0). -/
theorem c3_counterexample :
    isIdle (reset debouncedHigh) = true ∧
      _getDebouncedLevel (reset debouncedHigh) = true ∧
      _getDebouncedLevel (construct 3 true true) = false ∧
      _getLastLevel (reset debouncedHigh) = true ∧
      _getLastLevel (construct 3 true true) = false ∧
      (reset debouncedHigh).lastDebounceTime = 1 ∧
      (construct 3 true true).lastDebounceTime = 0 := by
  decide

/-- C1 (amended): per-call contract of the debounce filter. A call whose raw
level differs from the last-seen raw level records the new level and the
timestamp and leaves the debounced level unchanged; the debounced level
changes only on a call whose raw level equals the last-seen level with at
least `debounceTime / 4` ticks of the 4 ms clock elapsed since the recorded
change -- i.e. constancy of at least `4 * (debounceTime / 4)` ms up to the
3 ms quantization of the clock, not of `debounceTime` ms exactly -- and then
it becomes the raw level. The call returns the stored debounced level. -/
theorem c1_debounce_contract (b : Btn) (level : Bool) (millis : Nat) :
    (level ≠ _getLastLevel b →
      _getDebouncedLevel (_debounce b level millis).1 = _getDebouncedLevel b ∧
      _getLastLevel (_debounce b level millis).1 = level ∧
      (_debounce b level millis).1.lastDebounceTime = _now millis) ∧
    (_getDebouncedLevel (_debounce b level millis).1 ≠ _getDebouncedLevel b →
      level = _getLastLevel b ∧
      (b.debounce_ms >>> 2) % 256 ≤ u16sub (_now millis) b.lastDebounceTime ∧
      _getDebouncedLevel (_debounce b level millis).1 = level) ∧
    (_debounce b level millis).2 = _getDebouncedLevel (_debounce b level millis).1 := by
  by_cases hl : _getLastLevel b = level
  · by_cases ht : (b.debounce_ms >>> 2) % 256 ≤ u16sub (_now millis) b.lastDebounceTime <;>
      simp [_debounce, _setDebouncedLevel, _setLastLevel, _getDebouncedLevel, _getLastLevel,
        hl, ht] <;>
      simp_all [_getLastLevel]
  · simp [_debounce, _setDebouncedLevel, _setLastLevel, _getDebouncedLevel, _getLastLevel, hl]
    simp_all [_getLastLevel]

/-- Witness for C1's change branch at a fresh instance: the first call with a
changed raw level records it without touching the debounced level. -/
theorem c1_witness :
    _getDebouncedLevel (_debounce (construct 3 true true) true 3).1 =
        _getDebouncedLevel (construct 3 true true) ∧
      _getLastLevel (_debounce (construct 3 true true) true 3).1 = true ∧
      (_debounce (construct 3 true true) true 3).1.lastDebounceTime = _now 3 :=
  (c1_debounce_contract (construct 3 true true) true 3).1 (by decide)

/-- Counterexample to C1 as stated: with the default `debounceTime = 50` ms,
a raw-level change recorded at 3 ms is latched into the debounced level at
48 ms, after only 45 ms of constancy -- less than `debounceTime` ms --
because the comparison runs on the 4 ms clock against `50 >> 2 = 12` ticks. -/
theorem c1_counterexample :
    (construct 3 true true).debounce_ms = 50 ∧
      _getDebouncedLevel (_debounce (construct 3 true true) true 3).1 = false ∧
      _getLastLevel (_debounce (construct 3 true true) true 3).1 = true ∧
      _getDebouncedLevel
        (_debounce (_debounce (construct 3 true true) true 3).1 true 48).1 = true ∧
      48 - 3 < (construct 3 true true).debounce_ms := by
  decide

/-- C4: single click. From any Idle state, a trace consisting of: any idle
prelude; a press edge at `tp`; an arbitrary held block within the
long-press threshold; a release edge at `trel`; the click-count tick; any
released block strictly inside the click window; the first tick at or past
the click window; and any trailing released ticks -- produces exactly one
`onClick` invocation and no other callback. -/
theorem c4_single_click (b : Btn) (hb : _getState b = OCS_INIT)
    (pre hold wait post : List Nat) (tp trel tcnt tfire : Nat)
    (hhold : ∀ t ∈ hold, _elapsed t (_now tp) ≤ b.press_ms)
    (hwait : ∀ t ∈ wait, _elapsed t (_now trel) < b.click_ms)
    (hfire : b.click_ms ≤ _elapsed tfire (_now trel)) :
    (runFsm b (holdF pre ++ ((true, tp) :: (holdT hold ++ ((false, trel) :: ((false, tcnt) ::
      (holdF wait ++ ((false, tfire) :: holdF post)))))))).2 = [Event.click] := by
  have hv : view b = ⟨b.press_ms, b.click_ms, 0, _getClicks b, b.startTime⟩ := by
    simp [view, hb, OCS_INIT]
  have sUp : stepV ⟨b.press_ms, b.click_ms, 2, 0, _now trel⟩ false (_now tcnt) =
      (⟨b.press_ms, b.click_ms, 3, 1, _now trel⟩, []) := by
    rw [stepV_up]
  have s8 := runV_idleF b.press_ms b.click_ms 0 0 post
  have s7 := runV_cons_pair_chain
    (stepV_count_fire1 b.press_ms b.click_ms (_now trel) (_now tfire) hfire) s8
  have s6 := runV_chain_pair
    (runV_countF b.press_ms b.click_ms 1 (_now trel) (by norm_num) wait hwait) s7
  have s5 := runV_cons_pair_chain sUp s6
  have s4 := runV_cons_pair_chain
    (stepV_down_release b.press_ms b.click_ms 0 (_now tp) (_now trel)) s5
  have s3 := runV_chain_pair (runV_downT b.press_ms b.click_ms 0 (_now tp) hold hhold) s4
  have s2 := runV_cons_pair_chain
    (stepV_idle_t b.press_ms b.click_ms (_getClicks b) b.startTime (_now tp)) s3
  have s1 := runV_chain_pair
    (runV_idleF b.press_ms b.click_ms (_getClicks b) b.startTime pre) s2
  rw [runFsm_events]
  simp only [viewTrace_append, viewTrace_cons, viewTrace_holdF, viewTrace_holdT]
  rw [hv, s1]
  simp

/-- Witness for C4: one concrete single-click trace (press at 10 ms, release
at 30 ms, sampled every 10 ms up to the click-window expiry at 440 ms). -/
theorem c4_witness :
    (runFsm (construct 3 true true)
      (holdF [0] ++ ((true, 10) :: (holdT [20] ++ ((false, 30) :: ((false, 40) ::
        (holdF [50, 100, 200, 300, 400] ++ ((false, 440) :: holdF [450, 460])))))))).2 =
      [Event.click] :=
  c4_single_click (construct 3 true true) rfl [0] [20] [50, 100, 200, 300, 400] [450, 460]
    10 30 40 440 (by decide) (by decide) (by decide)

/-- C5: long press. From any Idle state, a trace consisting of: any idle
prelude; a press edge at `tp`; held ticks within the long-press threshold;
the first held tick past the threshold at `tx`; any further held ticks; the
release edge; the tick that consumes the long-press-end state; and any
trailing released ticks -- produces exactly one `onLongPressStart`
invocation, fired at the threshold-crossing tick, and no click or
double-click callback on release. -/
theorem c5_long_press (b : Btn) (hb : _getState b = OCS_INIT)
    (pre hold held post : List Nat) (tp tx trel tend : Nat)
    (hhold : ∀ t ∈ hold, _elapsed t (_now tp) ≤ b.press_ms)
    (hx : b.press_ms < _elapsed tx (_now tp)) :
    (runFsm b (holdF pre ++ ((true, tp) :: (holdT hold ++ ((true, tx) :: (holdT held ++
      ((false, trel) :: ((false, tend) :: holdF post)))))))).2 = [Event.longPressStart] := by
  have hv : view b = ⟨b.press_ms, b.click_ms, 0, _getClicks b, b.startTime⟩ := by
    simp [view, hb, OCS_INIT]
  have w6 := runV_idleF b.press_ms b.click_ms 0 0 post
  have w5 := runV_cons_pair_chain
    (stepV_pressend b.press_ms b.click_ms 0 (_now trel) (_now tend) false) w6
  have w4 := runV_cons_pair_chain
    (stepV_press_release b.press_ms b.click_ms 0 (_now tp) (_now trel)) w5
  have w3 := runV_chain_pair (runV_pressT b.press_ms b.click_ms 0 (_now tp) held) w4
  have w2 := runV_cons_pair_chain
    (stepV_down_lp b.press_ms b.click_ms 0 (_now tp) (_now tx) hx) w3
  have w1 := runV_chain_pair (runV_downT b.press_ms b.click_ms 0 (_now tp) hold hhold) w2
  have w0 := runV_cons_pair_chain
    (stepV_idle_t b.press_ms b.click_ms (_getClicks b) b.startTime (_now tp)) w1
  have s1 := runV_chain_pair
    (runV_idleF b.press_ms b.click_ms (_getClicks b) b.startTime pre) w0
  rw [runFsm_events]
  simp only [viewTrace_append, viewTrace_cons, viewTrace_holdF, viewTrace_holdT]
  rw [hv, s1]
  simp

/-- Witness for C5: one concrete long-press trace (press at 10 ms, threshold
crossed at 900 ms, release at 1100 ms). -/
theorem c5_witness :
    (runFsm (construct 3 true true)
      (holdF [0] ++ ((true, 10) :: (holdT [100, 500, 800] ++ ((true, 900) :: (holdT [1000] ++
        ((false, 1100) :: ((false, 1110) :: holdF [1200])))))))).2 =
      [Event.longPressStart] :=
  c5_long_press (construct 3 true true) rfl [0] [100, 500, 800] [1000] [1200]
    10 900 1100 1110 (by decide) (by decide)

/-- Counterexample to C2 as stated: `tripleClickTrace` contains three
press-release cycles (presses at 10, 90, 170 ms; releases at 30, 110,
190 ms), all within the default 400 ms click window of each other, yet the
run produces an `onClick` invocation in addition to the one
`onDoubleClick`: the two-click cap fires the double click as soon as the
second release has been counted, and the third cycle becomes a new click
group that ends in a single click. -/
theorem c2_counterexample :
    (runFsm (construct 3 true true) tripleClickTrace).2 =
        [Event.doubleClick, Event.click] ∧
      Event.click ∈ (runFsm (construct 3 true true) tripleClickTrace).2 := by
  decide

/-- C2 (amended): three press-release cycles all within the click window of
each other produce exactly one `onDoubleClick` -- fired at the first
released tick after the second release has been counted -- followed by
exactly one `onClick` for the third cycle, which starts a fresh click
group; no other callback fires. -/
theorem c2_triple_click_collapses (b : Btn) (hb : _getState b = OCS_INIT)
    (pre hold1 gap1 hold2 mid hold3 wait3 post : List Nat)
    (tp1 tr1 tc1 tp2 tr2 tc2 tdc tp3 tr3 tc3 tf3 : Nat)
    (hhold1 : ∀ t ∈ hold1, _elapsed t (_now tp1) ≤ b.press_ms)
    (hgap1 : ∀ t ∈ gap1, _elapsed t (_now tr1) < b.click_ms)
    (hp2 : _elapsed tp2 (_now tr1) < b.click_ms)
    (hhold2 : ∀ t ∈ hold2, _elapsed t (_now tp2) ≤ b.press_ms)
    (hdc : _elapsed tdc (_now tr2) < b.click_ms)
    (hp3 : _elapsed tp3 (_now tr2) < b.click_ms)
    (hhold3 : ∀ t ∈ hold3, _elapsed t (_now tp3) ≤ b.press_ms)
    (hwait3 : ∀ t ∈ wait3, _elapsed t (_now tr3) < b.click_ms)
    (hf3 : b.click_ms ≤ _elapsed tf3 (_now tr3)) :
    (runFsm b (holdF pre ++ ((true, tp1) :: (holdT hold1 ++ ((false, tr1) :: ((false, tc1) ::
      (holdF gap1 ++ ((true, tp2) :: (holdT hold2 ++ ((false, tr2) :: ((false, tc2) ::
      ((false, tdc) :: (holdF mid ++ ((true, tp3) :: (holdT hold3 ++ ((false, tr3) ::
      ((false, tc3) :: (holdF wait3 ++ ((false, tf3) ::
      holdF post))))))))))))))))))).2 = [Event.doubleClick, Event.click] := by
  have hv : view b = ⟨b.press_ms, b.click_ms, 0, _getClicks b, b.startTime⟩ := by
    simp [view, hb, OCS_INIT]
  have hUp1 : stepV ⟨b.press_ms, b.click_ms, 2, 0, _now tr1⟩ false (_now tc1) =
      (⟨b.press_ms, b.click_ms, 3, 1, _now tr1⟩, []) := by
    rw [stepV_up]
  have hUp2 : stepV ⟨b.press_ms, b.click_ms, 2, 1, _now tr2⟩ false (_now tc2) =
      (⟨b.press_ms, b.click_ms, 3, 2, _now tr2⟩, []) := by
    rw [stepV_up]
  have hUp3 : stepV ⟨b.press_ms, b.click_ms, 2, 0, _now tr3⟩ false (_now tc3) =
      (⟨b.press_ms, b.click_ms, 3, 1, _now tr3⟩, []) := by
    rw [stepV_up]
  have z12 := runV_idleF b.press_ms b.click_ms 0 0 post
  have z11 := runV_cons_pair_chain
    (stepV_count_fire1 b.press_ms b.click_ms (_now tr3) (_now tf3) hf3) z12
  have z10 := runV_chain_pair
    (runV_countF b.press_ms b.click_ms 1 (_now tr3) (by norm_num) wait3 hwait3) z11
  have z9 := runV_cons_pair_chain hUp3 z10
  have z8 := runV_cons_pair_chain
    (stepV_down_release b.press_ms b.click_ms 0 (_now tp3) (_now tr3)) z9
  have z7 := runV_chain_pair (runV_downT b.press_ms b.click_ms 0 (_now tp3) hold3 hhold3) z8
  have z6 := runV_cons_pair_chain (stepV_idle_t b.press_ms b.click_ms 0 0 (_now tp3)) z7
  have z5 := runV_chain_pair (runV_idleF b.press_ms b.click_ms 0 0 mid) z6
  have z4 := runV_cons_pair_chain
    (stepV_count_fire2 b.press_ms b.click_ms 2 (_now tr2) (_now tdc) (by norm_num)) z5
  have z3 := runV_cons_pair_chain hUp2 z4
  have z2 := runV_cons_pair_chain
    (stepV_down_release b.press_ms b.click_ms 1 (_now tp2) (_now tr2)) z3
  have z1 := runV_chain_pair (runV_downT b.press_ms b.click_ms 1 (_now tp2) hold2 hhold2) z2
  have z0 := runV_cons_pair_chain
    (stepV_count_press b.press_ms b.click_ms 1 (_now tr1) (_now tp2)) z1
  have y4 := runV_chain_pair
    (runV_countF b.press_ms b.click_ms 1 (_now tr1) (by norm_num) gap1 hgap1) z0
  have y3 := runV_cons_pair_chain hUp1 y4
  have y2 := runV_cons_pair_chain
    (stepV_down_release b.press_ms b.click_ms 0 (_now tp1) (_now tr1)) y3
  have y1 := runV_chain_pair (runV_downT b.press_ms b.click_ms 0 (_now tp1) hold1 hhold1) y2
  have y0 := runV_cons_pair_chain
    (stepV_idle_t b.press_ms b.click_ms (_getClicks b) b.startTime (_now tp1)) y1
  have s1 := runV_chain_pair
    (runV_idleF b.press_ms b.click_ms (_getClicks b) b.startTime pre) y0
  rw [runFsm_events]
  simp only [viewTrace_append, viewTrace_cons, viewTrace_holdF, viewTrace_holdT]
  rw [hv, s1]
  simp

/-- Witness for C2 (amended) at one concrete within-window triple click. -/
theorem c2_witness :
    (runFsm (construct 3 true true)
      (holdF [0] ++ ((true, 10) :: (holdT [20] ++ ((false, 30) :: ((false, 40) ::
        (holdF [50, 60] ++ ((true, 70) :: (holdT [80] ++ ((false, 90) :: ((false, 100) ::
        ((false, 110) :: (holdF [120, 130] ++ ((true, 140) :: (holdT [150] ++ ((false, 160) ::
        ((false, 170) :: (holdF [200, 300, 400, 500] ++ ((false, 570) ::
        holdF [600]))))))))))))))))))).2 = [Event.doubleClick, Event.click] :=
  c2_triple_click_collapses (construct 3 true true) rfl
    [0] [20] [50, 60] [80] [120, 130] [150] [200, 300, 400, 500] [600]
    10 30 40 70 90 100 110 140 160 170 570
    (by decide) (by decide) (by decide) (by decide) (by decide) (by decide) (by decide)
    (by decide) (by decide)

end OneButtonTiny
